import Mathlib

/-!
Shallow embedding of the exam-attendance app: student registration
(`StudentRegistration.tsx`), student verification / attendance marking
(`StudentVerification`), attendance reports (`AttendanceReports`,
`AttendanceDetailModal`), student details (`StudentDetails`) and the
home screen's data loading, together with proofs about the duplicate
checks, the reporting aggregation, and the input normalization.

Remote Supabase calls are modelled by their outcomes: an equality-filtered
select over an in-memory table (a `List` of rows), or an explicit
`Except`/`Option` outcome parameter where a claim quantifies over
failures.  JavaScript numbers are modelled exactly: counts as `ℕ`,
subtraction results as `ℤ`, and `Math.round` on a ratio as rounding of
the exact rational.
-/

/-- A row of the `students` table, as built by `handleSubmit` in
`StudentRegistration.tsx` (the `Student` type of the app). -/
structure Student where
  id : String
  fullName : String
  matricNumber : String
  image : String
  session : String
  semester : String
  courses : List String
  registrationDate : String
deriving DecidableEq

/-- A row of an attendance table (the `CourseAttendance` type of the app,
without the store-generated `id`). -/
structure CourseAttendance where
  matricNumber : String
  courseCode : String
  verificationDate : String
  invigilatorName : String
deriving DecidableEq

/-- A Supabase error, reduced to the only part the app inspects: its
`code` string (`PGRST116` means "no rows found"). -/
structure SupaError where
  code : String
deriving DecidableEq

/-- A user-facing message as set by `setMessage`. -/
inductive UserMessage where
  | success : String → UserMessage
  | error : String → UserMessage
deriving DecidableEq

/-! ### String operations used by the screens

`text.toUpperCase()` and `text.trim()` are modelled on the character
list of the string: uppercasing maps `Char.toUpper` over the characters,
trimming drops whitespace from both ends. -/

/-- Model of JavaScript `s.toUpperCase()` (ASCII letters). -/
def toUpperStr (s : String) : String :=
  String.mk (s.data.map Char.toUpper)

/-- Drop whitespace from both ends of a character list. -/
def trimChars (l : List Char) : List Char :=
  ((l.dropWhile Char.isWhitespace).reverse.dropWhile Char.isWhitespace).reverse

/-- Model of JavaScript `s.trim()`. -/
def trimStr (s : String) : String :=
  String.mk (trimChars s.data)

/-- Model of JavaScript `Math.round` on an exact rational (round half up). -/
def jsRound (q : ℚ) : ℤ := ⌊q + 1/2⌋

/-- Boolean lexicographic order on character lists, comparing characters
by their code point: the order JavaScript's default `Array.sort` uses on
the course-code strings of this app. -/
def lexLe : List Char → List Char → Bool
  | [], _ => true
  | _ :: _, [] => false
  | c :: cs, d :: ds =>
    if c.toNat < d.toNat then true
    else if d.toNat < c.toNat then false
    else lexLe cs ds

/-- Deduplication keeping the first occurrence of each element: the
semantics of JavaScript `Array.from(new Set(l))`. -/
def dedupFirst : List String → List String
  | [] => []
  | x :: xs => x :: dedupFirst (xs.filter (fun y => y != x))
termination_by l => l.length
decreasing_by
  simp only [List.length_cons]
  exact Nat.lt_succ_of_le (List.length_filter_le _ _)

/-! ### Character-level lemmas -/

theorem toUpper_toUpper (c : Char) : c.toUpper.toUpper = c.toUpper := by
  by_cases h : c.toNat ≥ 97 ∧ c.toNat ≤ 122
  · have hu : c.toUpper = Char.ofNat (c.toNat - 32) := by
      rw [Char.toUpper]
      simp [h]
    rw [hu]
    obtain ⟨h1, h2⟩ := h
    interval_cases h : c.toNat <;> decide
  · have hu : c.toUpper = c := by
      rw [Char.toUpper]
      simp [h]
    rw [hu, hu]

theorem isWhitespace_toUpper (c : Char) : c.toUpper.isWhitespace = c.isWhitespace := by
  by_cases h : c.toNat ≥ 97 ∧ c.toNat ≤ 122
  · obtain ⟨h1, h2⟩ := h
    have hu : c.toUpper = Char.ofNat (c.toNat - 32) := by
      rw [Char.toUpper]
      exact if_pos ⟨h1, h2⟩
    have hne1 : c ≠ ' ' := fun e => by subst e; exact absurd h1 (by decide)
    have hne2 : c ≠ '\t' := fun e => by subst e; exact absurd h1 (by decide)
    have hne3 : c ≠ '\x0d' := fun e => by subst e; exact absurd h1 (by decide)
    have hne4 : c ≠ '\n' := fun e => by subst e; exact absurd h1 (by decide)
    have w : c.isWhitespace = false := by
      simp [Char.isWhitespace, hne1, hne2, hne3, hne4]
    rw [hu, w]
    interval_cases hn : c.toNat <;> decide
  · have hu : c.toUpper = c := by
      rw [Char.toUpper]
      simp [h]
    rw [hu]

theorem map_toUpper_idem (l : List Char) :
    (l.map Char.toUpper).map Char.toUpper = l.map Char.toUpper := by
  rw [List.map_map]
  exact List.map_congr_left fun c _ => toUpper_toUpper c

theorem trimChars_map_toUpper (l : List Char) :
    trimChars (l.map Char.toUpper) = (trimChars l).map Char.toUpper := by
  have hw : Char.isWhitespace ∘ Char.toUpper = Char.isWhitespace :=
    funext fun c => isWhitespace_toUpper c
  unfold trimChars
  rw [List.dropWhile_map, hw, ← List.map_reverse, List.dropWhile_map, hw,
    ← List.map_reverse]

theorem toUpperStr_toUpperStr (s : String) :
    toUpperStr (toUpperStr s) = toUpperStr s := by
  unfold toUpperStr
  exact congrArg String.mk (map_toUpper_idem s.data)

theorem trimStr_toUpperStr (s : String) :
    trimStr (toUpperStr s) = toUpperStr (trimStr s) := by
  unfold trimStr toUpperStr
  exact congrArg String.mk (trimChars_map_toUpper s.data)

theorem toUpperStr_eq_empty (s : String) : toUpperStr s = "" ↔ s = "" := by
  cases s with
  | mk l =>
    cases l with
    | nil => exact ⟨fun _ => rfl, fun _ => rfl⟩
    | cons c cs =>
      constructor
      · intro h
        have hd : Char.toUpper c :: cs.map Char.toUpper = ([] : List Char) :=
          congrArg String.data h
        exact absurd hd (List.cons_ne_nil _ _)
      · intro h
        have hd : c :: cs = ([] : List Char) := congrArg String.data h
        exact absurd hd (List.cons_ne_nil _ _)

/-! ### Lexicographic-order and deduplication lemmas -/

theorem lexLe_total : ∀ a b : List Char, (lexLe a b || lexLe b a) = true := by
  intro a
  induction a with
  | nil => intro b; simp [lexLe]
  | cons c cs ih =>
    intro b
    cases b with
    | nil => simp [lexLe]
    | cons d ds =>
      by_cases h1 : c.toNat < d.toNat
      · simp [lexLe, h1]
      · by_cases h2 : d.toNat < c.toNat
        · simp [lexLe, h1, h2]
        · simp only [lexLe, if_neg h1, if_neg h2]
          exact ih ds

theorem lexLe_trans :
    ∀ a b c : List Char, lexLe a b = true → lexLe b c = true → lexLe a c = true := by
  intro a
  induction a with
  | nil => intro b c _ _; simp [lexLe]
  | cons x xs ih =>
    intro b c hab hbc
    cases b with
    | nil => simp [lexLe] at hab
    | cons y ys =>
      cases c with
      | nil => simp [lexLe] at hbc
      | cons z zs =>
        simp only [lexLe] at hab hbc ⊢
        by_cases hxy : x.toNat < y.toNat
        · by_cases hyz : y.toNat < z.toNat
          · rw [if_pos (Nat.lt_trans hxy hyz)]
          · by_cases hzy : z.toNat < y.toNat
            · simp [if_neg hyz, if_pos hzy] at hbc
            · have hyez : y.toNat = z.toNat := Nat.le_antisymm (Nat.le_of_not_lt hzy) (Nat.le_of_not_lt hyz)
              rw [if_pos (hyez ▸ hxy)]
        · by_cases hyx : y.toNat < x.toNat
          · simp [if_neg hxy, if_pos hyx] at hab
          · have hxey : x.toNat = y.toNat := Nat.le_antisymm (Nat.le_of_not_lt hyx) (Nat.le_of_not_lt hxy)
            rw [if_neg hxy, if_neg hyx] at hab
            by_cases hyz : y.toNat < z.toNat
            · rw [if_pos (hxey ▸ hyz)]
            · by_cases hzy : z.toNat < y.toNat
              · simp [if_neg hyz, if_pos hzy] at hbc
              · rw [if_neg hyz, if_neg hzy] at hbc
                rw [if_neg (hxey ▸ hyz), if_neg (hxey ▸ hzy)]
                exact ih ys zs hab hbc

theorem mem_dedupFirst : ∀ (l : List String) (a : String), a ∈ dedupFirst l ↔ a ∈ l := by
  intro l
  induction l using dedupFirst.induct with
  | case1 => intro a; rw [dedupFirst]
  | case2 x xs ih =>
    intro a
    rw [dedupFirst]
    by_cases hax : a = x
    · subst hax
      simp [List.mem_cons]
    · simp only [List.mem_cons, ih, List.mem_filter]
      constructor
      · rintro (h | ⟨h, _⟩)
        · exact Or.inl h
        · exact Or.inr h
      · rintro (h | h)
        · exact Or.inl h
        · exact Or.inr ⟨h, by simpa using hax⟩

theorem nodup_dedupFirst : ∀ l : List String, (dedupFirst l).Nodup := by
  intro l
  induction l using dedupFirst.induct with
  | case1 => rw [dedupFirst]; exact List.nodup_nil
  | case2 x xs ih =>
    rw [dedupFirst]
    refine List.Nodup.cons ?_ ih
    intro hx
    have := (mem_dedupFirst _ x).mp hx
    rw [List.mem_filter] at this
    simpa using this.2

/-! ### Rounding lemma: `Math.round((a / r) * 100)` as an integer division -/

theorem jsRound_eq_round (q : ℚ) : jsRound q = round q := by
  rw [round_eq]; rfl

theorem round_ratio (a r : ℕ) (hr : r ≠ 0) :
    round ((a : ℚ) / (r : ℚ) * 100) = (((200 * a + r) / (2 * r) : ℕ) : ℤ) := by
  rw [round_eq]
  have h1 : ((a : ℚ) / (r : ℚ) * 100 + 1/2) = ((200 * a + r : ℕ) : ℚ) / ((2 * r : ℕ) : ℚ) := by
    have hr0 : (r : ℚ) ≠ 0 := Nat.cast_ne_zero.mpr hr
    push_cast
    field_simp
    ring
  rw [h1]
  have h2 : (0 : ℚ) ≤ ((200 * a + r : ℕ) : ℚ) / ((2 * r : ℕ) : ℚ) := by positivity
  have h3 : ⌊((200 * a + r : ℕ) : ℚ) / ((2 * r : ℕ) : ℚ)⌋ =
      ((⌊((200 * a + r : ℕ) : ℚ) / ((2 * r : ℕ) : ℚ)⌋₊ : ℕ) : ℤ) := by
    rw [← Int.floor_toNat, Int.toNat_of_nonneg (Int.floor_nonneg.mpr h2)]
  rw [h3, Nat.floor_div_nat, Nat.floor_natCast]

/-! ### Student registration (`src/app/mp/StudentRegistration.tsx`) -/

/-- Outcome of `supabase.from('students').select(...).eq('matricNumber', m).single()`
against an in-memory `students` table: the single matching row, or error
`PGRST116` when no row matches, or another error when several match. -/
def queryStudentSingle (store : List Student) (m : String) : Except SupaError Student :=
  match store.filter (fun s => s.matricNumber == m) with
  | [] => .error ⟨"PGRST116"⟩
  | [s] => .ok s
  | _ :: _ :: _ => .error ⟨"PGRST_MULTIPLE_ROWS"⟩

/-- `checkDuplicateRegistration` from `StudentRegistration.tsx`, as a function
of the lookup outcome: on any lookup error it returns `[]` (the non-`PGRST116`
branch logs and returns `[]`; with `PGRST116` there is no row and the final
`return []` is reached); on a found row it returns the requested courses
already present in the row's course list. -/
def checkDuplicateRegistration (lookup : Except SupaError Student)
    (courses : List String) : List String :=
  match lookup with
  | .error _ => []
  | .ok data => courses.filter (fun course => data.courses.contains course)

/-- The registration form state (`formData`). -/
structure RegForm where
  fullName : String
  matricNumber : String
  image : String
  session : String
  semester : String
  courses : List String
deriving DecidableEq

/-- The `newStudent` row built by `handleSubmit` (`id` from `Date.now()`,
`registrationDate` from `new Date()`, passed in as parameters). -/
def newStudentRow (form : RegForm) (nowId nowDate : String) : Student :=
  ⟨nowId, form.fullName, form.matricNumber, form.image, form.session,
    form.semester, form.courses, nowDate⟩

/-- `handleSubmit` from `StudentRegistration.tsx`, as a function of the
duplicate-lookup outcome and the insert outcome: field validation, then the
duplicate check (blocking with a message naming the overlapping courses),
then the insert into the `students` table.  Returns the resulting
`students` table and the message set. -/
def handleSubmitWith (lookup : Except SupaError Student) (insertErr : Option SupaError)
    (form : RegForm) (store : List Student) (nowId nowDate : String) :
    List Student × UserMessage :=
  if form.fullName = "" ∨ form.matricNumber = "" ∨ form.image = "" ∨ form.courses.length = 0 then
    (store, .error "Please fill in all fields and select at least one course.")
  else
    let duplicateCourses := checkDuplicateRegistration lookup form.courses
    if 0 < duplicateCourses.length then
      (store, .error ("Student is already registered for: " ++ String.intercalate ", " duplicateCourses))
    else
      match insertErr with
      | some _ => (store, .error "Error registering student.")
      | none => (store ++ [newStudentRow form nowId nowDate], .success "Student registered successfully!")

/-- `handleSubmit` with the duplicate lookup run against the in-memory
`students` table. -/
def handleSubmit (form : RegForm) (store : List Student) (insertErr : Option SupaError)
    (nowId nowDate : String) : List Student × UserMessage :=
  handleSubmitWith (queryStudentSingle store form.matricNumber) insertErr form store nowId nowDate

/-! ### Student verification (`StudentVerification`, `src/unnamed/part_000`) -/

/-- Outcome of `supabase.from('course_attendance').select('*')
.eq('matricNumber', m).eq('courseCode', c)` against an in-memory table. -/
def queryAttendance (store : List CourseAttendance) (m c : String) :
    Except SupaError (List CourseAttendance) :=
  .ok (store.filter (fun r => r.matricNumber == m && r.courseCode == c))

/-- `isAlreadyVerified`, as a function of the query outcome: on error it
logs and returns `false`; otherwise it reports whether any row matched. -/
def isAlreadyVerified (res : Except SupaError (List CourseAttendance)) : Bool :=
  match res with
  | .error _ => false
  | .ok data => decide (0 < data.length)

/-- `handleMarkAttendance`, as a function of the already-verified-check
outcome and the insert outcome: validation, then the duplicate check
(blocking with a message), then the insert into `course_attendance`.
Returns the resulting `course_attendance` table and the message set. -/
def handleMarkAttendanceWith (checkRes : Except SupaError (List CourseAttendance))
    (insertErr : Option SupaError) (selectedStudent : Option Student)
    (selectedCourse invigilatorName : String)
    (store : List CourseAttendance) (now : String) :
    List CourseAttendance × UserMessage :=
  match selectedStudent with
  | none => (store, .error "Please select a course and enter invigilator name.")
  | some s =>
    if selectedCourse = "" ∨ trimStr invigilatorName = "" then
      (store, .error "Please select a course and enter invigilator name.")
    else if isAlreadyVerified checkRes then
      (store, .error "Student has already been verified for this course exam.")
    else
      match insertErr with
      | some _ => (store, .error "Error marking attendance.")
      | none =>
        (store ++ [⟨s.matricNumber, selectedCourse, now, trimStr invigilatorName⟩],
         .success "Student attendance marked successfully!")

/-- `handleMarkAttendance` with the already-verified check run against the
in-memory `course_attendance` table. -/
def handleMarkAttendance (selectedStudent : Option Student)
    (selectedCourse invigilatorName : String) (insertErr : Option SupaError)
    (store : List CourseAttendance) (now : String) :
    List CourseAttendance × UserMessage :=
  handleMarkAttendanceWith
    (match selectedStudent with
     | none => .ok []
     | some s => queryAttendance store s.matricNumber selectedCourse)
    insertErr selectedStudent selectedCourse invigilatorName store now

/-- The tail of `handleSearch`, as a function of the lookup outcome:
a non-`PGRST116` error sets an error message; a found row is selected;
no row yields the not-found message. -/
def handleSearchWith (res : Except SupaError Student) :
    Option Student × Option UserMessage :=
  match res with
  | .ok data => (some data, none)
  | .error e =>
    if e.code ≠ "PGRST116" then (none, some (.error "Error searching student."))
    else (none, some (.error "Student not found. Please check the matric number."))

/-- `handleSearch` from `StudentVerification`: reject a blank input, then
look up the trimmed, upper-cased matric number. -/
def handleSearch (store : List Student) (matricNumber : String) :
    Option Student × Option UserMessage :=
  if trimStr matricNumber = "" then
    (none, some (.error "Please enter a matric number."))
  else
    handleSearchWith (queryStudentSingle store (toUpperStr (trimStr matricNumber)))

/-- The matric-number text-input state: both `StudentRegistration` and
`StudentVerification` store `text.toUpperCase()` on every change. -/
def matricInputState (typed : String) : String := toUpperStr typed

/-! ### Attendance reports (`AttendanceReports`, `src/unnamed/part_003`) -/

/-- `getStudentsForCourse`. -/
def getStudentsForCourse (students : List Student) (courseCode : String) : List Student :=
  students.filter (fun student => student.courses.contains courseCode)

/-- `getAttendanceForCourse`. -/
def getAttendanceForCourse (attendanceRecords : List CourseAttendance)
    (courseCode : String) : List CourseAttendance :=
  attendanceRecords.filter (fun record => record.courseCode == courseCode)

/-- The record returned by `getCourseStats`. -/
structure CourseStats where
  registered : ℕ
  attended : ℕ
  percentage : ℤ
deriving DecidableEq

/-- `getCourseStats`: registered and attended counts, and
`Math.round((attended / registered) * 100)`, `0` when none registered. -/
def getCourseStats (students : List Student) (attendanceRecords : List CourseAttendance)
    (courseCode : String) : CourseStats :=
  let registeredStudents := getStudentsForCourse students courseCode
  let attendanceList := getAttendanceForCourse attendanceRecords courseCode
  { registered := registeredStudents.length
    attended := attendanceList.length
    percentage :=
      if 0 < registeredStudents.length then
        jsRound ((attendanceList.length : ℚ) / (registeredStudents.length : ℚ) * 100)
      else 0 }

/-- `allCourses`: `Array.from(new Set(students.flatMap(s => s.courses))).sort()`. -/
def allCourses (students : List Student) : List String :=
  (dedupFirst (students.flatMap (fun student => student.courses))).mergeSort
    (fun a b => lexLe a.data b.data)

/-! ### Per-course detail view (`AttendanceDetailModal`, `src/unnamed/part_001`) -/

/-- `absentCount` in `AttendanceDetailModal`: registered count minus the
raw count of attendance rows for the course (a JavaScript number, so the
difference can be negative). -/
def absentCount (students : List Student) (attendanceRecords : List CourseAttendance)
    (course : String) : ℤ :=
  ((getStudentsForCourse students course).length : ℤ) -
    ((getAttendanceForCourse attendanceRecords course).length : ℤ)

/-- The number of registered students for a course that have no attendance
row for it: what an absent count would have to be to count absentees. -/
def registeredStudentsWithoutAttendance (students : List Student)
    (attendanceRecords : List CourseAttendance) (course : String) : ℕ :=
  ((getStudentsForCourse students course).filter
    (fun s => (attendanceRecords.filter
      (fun r => r.matricNumber == s.matricNumber && r.courseCode == course)).isEmpty)).length

/-! ### Student details (`StudentDetails`, `src/unnamed/part_003`) -/

/-- `getStudentAttendance`: all attendance rows whose matric number matches. -/
def getStudentAttendance (attendanceRecords : List CourseAttendance)
    (matricNumber : String) : List CourseAttendance :=
  attendanceRecords.filter (fun record => record.matricNumber == matricNumber)

/-- `getAttendancePercentage`: `Math.round((attended / total) * 100)` where
`attended` counts every row matching the student's matric number and
`total` is the number of enrolled courses; `0` when no courses. -/
def getAttendancePercentage (attendanceRecords : List CourseAttendance)
    (student : Student) : ℤ :=
  let attended := (getStudentAttendance attendanceRecords student.matricNumber).length
  let total := student.courses.length
  if 0 < total then jsRound ((attended : ℚ) / (total : ℚ) * 100) else 0

/-- The per-student percentage as the spec sentence for C4 states it:
only attendance rows whose course code occurs in the student's enrollment
list are counted. -/
def specIntersectionPercentage (attendanceRecords : List CourseAttendance)
    (student : Student) : ℤ :=
  let attended := (attendanceRecords.filter
    (fun r => r.matricNumber == student.matricNumber && student.courses.contains r.courseCode)).length
  let total := student.courses.length
  if 0 < total then jsRound ((attended : ℚ) / (total : ℚ) * 100) else 0

/-! ### Table routing (`HomeScreen.tsx`, `StudentDetails`, claim C8) -/

/-- The remote store's tables that hold attendance data, plus the students
table: `handleMarkAttendance` inserts into `course_attendance`;
`HomeScreen.loadAttendance` and `StudentDetails.fetchData` select from
`attendance_records` (whose snake-case columns are mapped one-to-one onto
`CourseAttendance` fields, an identity in this model). -/
structure Database where
  students : List Student
  course_attendance : List CourseAttendance
  attendance_records : List CourseAttendance
deriving DecidableEq

/-- The mark-attendance action at database level: only the
`course_attendance` table is written. -/
def markAttendanceDB (db : Database) (selectedStudent : Option Student)
    (selectedCourse invigilatorName : String) (insertErr : Option SupaError)
    (now : String) : Database × UserMessage :=
  let r := handleMarkAttendance selectedStudent selectedCourse invigilatorName
    insertErr db.course_attendance now
  ({ db with course_attendance := r.1 }, r.2)

/-- The registration action at database level: only the `students` table
is written. -/
def registerStudentDB (db : Database) (form : RegForm) (insertErr : Option SupaError)
    (nowId nowDate : String) : Database × UserMessage :=
  let r := handleSubmit form db.students insertErr nowId nowDate
  ({ db with students := r.1 }, r.2)

/-- `HomeScreen.loadAttendance`: selects from `attendance_records`. -/
def loadAttendance (db : Database) : List CourseAttendance := db.attendance_records

/-- `StudentDetails.fetchData` attendance part: selects from `attendance_records`. -/
def studentDetailsAttendance (db : Database) : List CourseAttendance := db.attendance_records

/-- `AttendanceReports.fetchData` attendance part: selects from `course_attendance`. -/
def reportsAttendance (db : Database) : List CourseAttendance := db.course_attendance

/-! ### Behavioural lemmas about the registration and marking actions -/

theorem handleSubmitWith_blocked (lookup : Except SupaError Student)
    (ie : Option SupaError) (form : RegForm) (store : List Student) (nowId nowDate : String)
    (hval : ¬(form.fullName = "" ∨ form.matricNumber = "" ∨ form.image = "" ∨ form.courses.length = 0))
    (hne : checkDuplicateRegistration lookup form.courses ≠ []) :
    handleSubmitWith lookup ie form store nowId nowDate =
      (store, .error ("Student is already registered for: " ++
        String.intercalate ", " (checkDuplicateRegistration lookup form.courses))) := by
  simp only [handleSubmitWith]
  rw [if_neg hval, if_pos (List.length_pos.mpr hne)]

theorem handleSubmitWith_proceeds (lookup : Except SupaError Student)
    (ie : Option SupaError) (form : RegForm) (store : List Student) (nowId nowDate : String)
    (hval : ¬(form.fullName = "" ∨ form.matricNumber = "" ∨ form.image = "" ∨ form.courses.length = 0))
    (hdup : checkDuplicateRegistration lookup form.courses = []) :
    handleSubmitWith lookup ie form store nowId nowDate =
      match ie with
      | some _ => (store, .error "Error registering student.")
      | none => (store ++ [newStudentRow form nowId nowDate],
          .success "Student registered successfully!") := by
  simp only [handleSubmitWith]
  rw [if_neg hval, hdup]
  rfl

theorem handleMarkAttendanceWith_blocked (checkRes : Except SupaError (List CourseAttendance))
    (ie : Option SupaError) (s : Student) (selectedCourse invigilatorName : String)
    (store : List CourseAttendance) (now : String)
    (hc : selectedCourse ≠ "") (hi : trimStr invigilatorName ≠ "")
    (hver : isAlreadyVerified checkRes = true) :
    handleMarkAttendanceWith checkRes ie (some s) selectedCourse invigilatorName store now =
      (store, .error "Student has already been verified for this course exam.") := by
  simp only [handleMarkAttendanceWith]
  rw [if_neg (by push_neg; exact ⟨hc, hi⟩), if_pos hver]

theorem handleMarkAttendanceWith_proceeds (checkRes : Except SupaError (List CourseAttendance))
    (ie : Option SupaError) (s : Student) (selectedCourse invigilatorName : String)
    (store : List CourseAttendance) (now : String)
    (hc : selectedCourse ≠ "") (hi : trimStr invigilatorName ≠ "")
    (hver : isAlreadyVerified checkRes = false) :
    handleMarkAttendanceWith checkRes ie (some s) selectedCourse invigilatorName store now =
      match ie with
      | some _ => (store, .error "Error marking attendance.")
      | none => (store ++ [⟨s.matricNumber, selectedCourse, now, trimStr invigilatorName⟩],
          .success "Student attendance marked successfully!") := by
  simp only [handleMarkAttendanceWith]
  rw [if_neg (by push_neg; exact ⟨hc, hi⟩), if_neg (by rw [hver]; exact Bool.false_ne_true)]

/-! ### Concrete rows used by witnesses and counterexamples -/

/-- A concrete student row. -/
def mkStudent (m : String) (cs : List String) : Student :=
  ⟨"1", "Test Student", m, "img", "2024/2025", "First Semester", cs, "2024-01-01"⟩

/-- A concrete attendance row. -/
def mkRow (m c : String) : CourseAttendance := ⟨m, c, "2024-01-02", "Dr. A"⟩

/-- Students table for the C1 witness. -/
def regStore1 : List Student :=
  [mkStudent "CSC/2020/002" ["CSC 301 - Data Structures", "MTH 301 - Numerical Analysis"]]

/-- Form data for the C1 witness. -/
def regForm1 : RegForm :=
  ⟨"Ada", "CSC/2020/002", "img", "2024/2025", "First Semester", ["CSC 301 - Data Structures"]⟩

/-! ### Claims -/

/-- C1: for a registration submission with matric number `m` and requested
courses `C`, if a student row with matric number `m` is stored with
enrollment list `E`, the duplicate check returns exactly the sublist of
`C` of courses occurring in `E`, and the insert runs only when that
sublist is empty — a non-empty sublist blocks registration with an error
message naming the overlapping courses; with no stored row the check
returns `[]` and registration proceeds. -/
theorem C1_duplicate_registration_check (store : List Student) (form : RegForm)
    (nowId nowDate : String)
    (hname : form.fullName ≠ "") (hmat : form.matricNumber ≠ "")
    (himg : form.image ≠ "") (hcrs : form.courses.length ≠ 0) :
    (∀ s : Student, store.filter (fun t => t.matricNumber == form.matricNumber) = [s] →
      checkDuplicateRegistration (queryStudentSingle store form.matricNumber) form.courses =
        form.courses.filter (fun c => s.courses.contains c) ∧
      (checkDuplicateRegistration (queryStudentSingle store form.matricNumber) form.courses).Sublist
        form.courses ∧
      (∀ c, c ∈ checkDuplicateRegistration (queryStudentSingle store form.matricNumber) form.courses ↔
        c ∈ form.courses ∧ c ∈ s.courses) ∧
      (checkDuplicateRegistration (queryStudentSingle store form.matricNumber) form.courses ≠ [] →
        ∀ ie, handleSubmit form store ie nowId nowDate =
          (store, .error ("Student is already registered for: " ++ String.intercalate ", "
            (checkDuplicateRegistration (queryStudentSingle store form.matricNumber) form.courses)))) ∧
      (checkDuplicateRegistration (queryStudentSingle store form.matricNumber) form.courses = [] →
        handleSubmit form store none nowId nowDate =
          (store ++ [newStudentRow form nowId nowDate],
            .success "Student registered successfully!"))) ∧
    (store.filter (fun t => t.matricNumber == form.matricNumber) = [] →
      checkDuplicateRegistration (queryStudentSingle store form.matricNumber) form.courses = [] ∧
      handleSubmit form store none nowId nowDate =
        (store ++ [newStudentRow form nowId nowDate],
          .success "Student registered successfully!")) := by
  have hval : ¬(form.fullName = "" ∨ form.matricNumber = "" ∨ form.image = "" ∨
      form.courses.length = 0) := by
    push_neg
    exact ⟨hname, hmat, himg, hcrs⟩
  constructor
  · intro s hs
    have hq : queryStudentSingle store form.matricNumber = .ok s := by
      unfold queryStudentSingle
      rw [hs]
    have hdup : checkDuplicateRegistration (queryStudentSingle store form.matricNumber) form.courses =
        form.courses.filter (fun c => s.courses.contains c) := by
      rw [hq]
      rfl
    refine ⟨hdup, ?_, ?_, ?_, ?_⟩
    · rw [hdup]
      exact List.filter_sublist _
    · intro c
      rw [hdup, List.mem_filter]
      simp
    · intro hne ie
      unfold handleSubmit
      exact handleSubmitWith_blocked _ _ _ _ _ _ hval hne
    · intro hd
      unfold handleSubmit
      exact handleSubmitWith_proceeds _ none _ _ _ _ hval hd
  · intro hs
    have hq : queryStudentSingle store form.matricNumber = .error ⟨"PGRST116"⟩ := by
      unfold queryStudentSingle
      rw [hs]
    have hdup : checkDuplicateRegistration (queryStudentSingle store form.matricNumber)
        form.courses = [] := by
      rw [hq]
      rfl
    exact ⟨hdup, by
      unfold handleSubmit
      exact handleSubmitWith_proceeds _ none _ _ _ _ hval hdup⟩

/-- Witness for C1: a submission for a matric number already enrolled in
`CSC 301 - Data Structures` is blocked with the overlapping course named. -/
theorem C1_duplicate_registration_check_witness :
    handleSubmit regForm1 regStore1 none "9" "2024-02-02" =
      (regStore1, .error "Student is already registered for: CSC 301 - Data Structures") := by
  have h := ((C1_duplicate_registration_check regStore1 regForm1 "9" "2024-02-02"
    (by decide) (by decide) (by decide) (by decide)).1
    (mkStudent "CSC/2020/002" ["CSC 301 - Data Structures", "MTH 301 - Numerical Analysis"])
    (by decide)).2.2.2.1 (by decide) none
  exact h.trans (by decide)

/-- C2: marking attendance for a matric number and course code for which an
attendance row already exists (exact, case-sensitive equality on both
fields) is rejected with a user-facing message, and the attendance table
is unchanged. -/
theorem C2_mark_attendance_rejected (store : List CourseAttendance) (s : Student)
    (selectedCourse invigilatorName now : String) (ie : Option SupaError)
    (hc : selectedCourse ≠ "") (hi : trimStr invigilatorName ≠ "")
    (r : CourseAttendance) (hr : r ∈ store)
    (hm : r.matricNumber = s.matricNumber) (hcc : r.courseCode = selectedCourse) :
    handleMarkAttendance (some s) selectedCourse invigilatorName ie store now =
      (store, .error "Student has already been verified for this course exam.") := by
  unfold handleMarkAttendance
  apply handleMarkAttendanceWith_blocked _ _ _ _ _ _ _ hc hi
  unfold isAlreadyVerified queryAttendance
  have hmem : r ∈ store.filter
      (fun x => x.matricNumber == s.matricNumber && x.courseCode == selectedCourse) := by
    rw [List.mem_filter]
    refine ⟨hr, ?_⟩
    rw [hm, hcc]
    simp
  exact decide_eq_true (List.length_pos.mpr (List.ne_nil_of_mem hmem))

/-- Witness for C2: a second mark for the same matric number and course is
rejected and the table is left as it was. -/
theorem C2_mark_attendance_rejected_witness :
    handleMarkAttendance (some (mkStudent "CSC/2020/001" ["CSC 301 - Data Structures"]))
      "CSC 301 - Data Structures" "Dr. B" none [mkRow "CSC/2020/001" "CSC 301 - Data Structures"]
      "2024-03-03" =
      ([mkRow "CSC/2020/001" "CSC 301 - Data Structures"],
        .error "Student has already been verified for this course exam.") :=
  C2_mark_attendance_rejected [mkRow "CSC/2020/001" "CSC 301 - Data Structures"]
    (mkStudent "CSC/2020/001" ["CSC 301 - Data Structures"])
    "CSC 301 - Data Structures" "Dr. B" "2024-03-03" none
    (by decide) (by decide)
    (mkRow "CSC/2020/001" "CSC 301 - Data Structures") (by decide) (by decide) (by decide)

/-- Students table for the reporting witnesses: two students registered
for `CSC 301`. -/
def repStudents : List Student :=
  [mkStudent "CSC/2020/001" ["CSC 301 - Data Structures"],
   mkStudent "CSC/2020/002" ["CSC 301 - Data Structures"]]

/-- Attendance table for the reporting witnesses: one row for `CSC 301`. -/
def repRecords : List CourseAttendance :=
  [mkRow "CSC/2020/001" "CSC 301 - Data Structures"]

/-- C3: per-course statistics: `registered` counts the students whose
enrollment list contains the course, `attended` counts the attendance rows
with that course code, and the percentage is the rounding of
`attended / registered × 100` (also computed in closed form as natural
division) when `registered > 0`, and `0` when `registered = 0`. -/
theorem C3_course_stats (students : List Student)
    (attendanceRecords : List CourseAttendance) (c : String) :
    (getCourseStats students attendanceRecords c).registered =
      students.countP (fun s => s.courses.contains c) ∧
    (getCourseStats students attendanceRecords c).attended =
      attendanceRecords.countP (fun r => r.courseCode == c) ∧
    ((getCourseStats students attendanceRecords c).registered ≠ 0 →
      (getCourseStats students attendanceRecords c).percentage =
        round (((getCourseStats students attendanceRecords c).attended : ℚ) /
          ((getCourseStats students attendanceRecords c).registered : ℚ) * 100) ∧
      (getCourseStats students attendanceRecords c).percentage =
        (((200 * (getCourseStats students attendanceRecords c).attended +
            (getCourseStats students attendanceRecords c).registered) /
          (2 * (getCourseStats students attendanceRecords c).registered) : ℕ) : ℤ)) ∧
    ((getCourseStats students attendanceRecords c).registered = 0 →
      (getCourseStats students attendanceRecords c).percentage = 0) := by
  have hreg : (getCourseStats students attendanceRecords c).registered =
      (getStudentsForCourse students c).length := rfl
  have hatt : (getCourseStats students attendanceRecords c).attended =
      (getAttendanceForCourse attendanceRecords c).length := rfl
  have hp : (getCourseStats students attendanceRecords c).percentage =
      if 0 < (getStudentsForCourse students c).length then
        jsRound (((getAttendanceForCourse attendanceRecords c).length : ℚ) /
          ((getStudentsForCourse students c).length : ℚ) * 100)
      else 0 := rfl
  refine ⟨?_, ?_, ?_, ?_⟩
  · rw [hreg]
    exact (List.countP_eq_length_filter _ _).symm
  · rw [hatt]
    exact (List.countP_eq_length_filter _ _).symm
  · intro h0
    rw [hreg] at h0
    have hpos : 0 < (getStudentsForCourse students c).length := Nat.pos_of_ne_zero h0
    have hp2 : (getCourseStats students attendanceRecords c).percentage =
        jsRound (((getAttendanceForCourse attendanceRecords c).length : ℚ) /
          ((getStudentsForCourse students c).length : ℚ) * 100) := by
      rw [hp, if_pos hpos]
    constructor
    · rw [hp2, hreg, hatt, jsRound_eq_round]
    · rw [hp2, hreg, hatt, jsRound_eq_round, round_ratio _ _ h0]
  · intro h0
    rw [hreg] at h0
    rw [hp, if_neg (by omega)]

/-- Witness for C3: with two students registered for `CSC 301` and one
attendance row, the reported percentage is 50. -/
theorem C3_course_stats_witness :
    (getCourseStats repStudents repRecords "CSC 301 - Data Structures").percentage = 50 :=
  (((C3_course_stats repStudents repRecords "CSC 301 - Data Structures").2.2.1
    (by decide)).2).trans (by decide)

/-- Closed form for `getAttendancePercentage` when the student has at least
one enrolled course. -/
theorem getAttendancePercentage_closed (attendanceRecords : List CourseAttendance)
    (student : Student) (h : student.courses.length ≠ 0) :
    getAttendancePercentage attendanceRecords student =
      (((200 * (getStudentAttendance attendanceRecords student.matricNumber).length +
          student.courses.length) / (2 * student.courses.length) : ℕ) : ℤ) := by
  have hp : getAttendancePercentage attendanceRecords student =
      if 0 < student.courses.length then
        jsRound (((getStudentAttendance attendanceRecords student.matricNumber).length : ℚ) /
          (student.courses.length : ℚ) * 100)
      else 0 := rfl
  rw [hp, if_pos (Nat.pos_of_ne_zero h), jsRound_eq_round, round_ratio _ _ h]

/-- Closed form for the spec-side intersection-restricted percentage when
the student has at least one enrolled course. -/
theorem specIntersectionPercentage_closed (attendanceRecords : List CourseAttendance)
    (student : Student) (h : student.courses.length ≠ 0) :
    specIntersectionPercentage attendanceRecords student =
      (((200 * (attendanceRecords.filter (fun r => r.matricNumber == student.matricNumber &&
          student.courses.contains r.courseCode)).length +
          student.courses.length) / (2 * student.courses.length) : ℕ) : ℤ) := by
  have hp : specIntersectionPercentage attendanceRecords student =
      if 0 < student.courses.length then
        jsRound (((attendanceRecords.filter (fun r => r.matricNumber == student.matricNumber &&
          student.courses.contains r.courseCode)).length : ℚ) /
          (student.courses.length : ℚ) * 100)
      else 0 := rfl
  rw [hp, if_pos (Nat.pos_of_ne_zero h), jsRound_eq_round, round_ratio _ _ h]

/-- C4 counterexample: a student enrolled only in `CSC 301` with one
attendance row for `MTH 301` (same matric number) is reported at 100%,
not at the 0% the intersection-restricted formula of the claim gives. -/
theorem C4_intersection_counterexample :
    getAttendancePercentage [mkRow "CSC/2020/001" "MTH 301"]
      (mkStudent "CSC/2020/001" ["CSC 301"]) = 100 ∧
    specIntersectionPercentage [mkRow "CSC/2020/001" "MTH 301"]
      (mkStudent "CSC/2020/001" ["CSC 301"]) = 0 ∧
    getAttendancePercentage [mkRow "CSC/2020/001" "MTH 301"]
      (mkStudent "CSC/2020/001" ["CSC 301"]) ≠
      specIntersectionPercentage [mkRow "CSC/2020/001" "MTH 301"]
        (mkStudent "CSC/2020/001" ["CSC 301"]) := by
  refine ⟨?_, ?_, ?_⟩
  · rw [getAttendancePercentage_closed _ _ (by decide)]
    decide
  · rw [specIntersectionPercentage_closed _ _ (by decide)]
    decide
  · rw [getAttendancePercentage_closed _ _ (by decide),
      specIntersectionPercentage_closed _ _ (by decide)]
    decide

/-- C4 as amended: the per-student attended count includes every attendance
row whose matric number matches, regardless of whether its course code
occurs in the student's enrollment list, and the percentage rounds
`attended / |C| × 100` (`0` when `|C| = 0`). -/
theorem C4_amended_unrestricted_count (attendanceRecords : List CourseAttendance)
    (student : Student) :
    getAttendancePercentage attendanceRecords student =
      (if 0 < student.courses.length then
        round ((attendanceRecords.countP (fun r => r.matricNumber == student.matricNumber) : ℚ) /
          (student.courses.length : ℚ) * 100)
      else 0) ∧
    (∀ r ∈ attendanceRecords, r.matricNumber = student.matricNumber →
      ¬ student.courses.contains r.courseCode →
        r ∈ getStudentAttendance attendanceRecords student.matricNumber) := by
  constructor
  · have hp : getAttendancePercentage attendanceRecords student =
        if 0 < student.courses.length then
          jsRound (((getStudentAttendance attendanceRecords student.matricNumber).length : ℚ) /
            (student.courses.length : ℚ) * 100)
        else 0 := rfl
    rw [hp]
    by_cases hpos : 0 < student.courses.length
    · rw [if_pos hpos, if_pos hpos, jsRound_eq_round, List.countP_eq_length_filter]
      rfl
    · rw [if_neg hpos, if_neg hpos]
  · intro r hr hm _
    unfold getStudentAttendance
    rw [List.mem_filter]
    exact ⟨hr, by rw [hm]; simp⟩

/-- Witness for the amended C4: the `MTH 301` row, not enrolled for the
student, is nevertheless in the counted row set. -/
theorem C4_amended_unrestricted_count_witness :
    mkRow "CSC/2020/001" "MTH 301" ∈
      getStudentAttendance [mkRow "CSC/2020/001" "MTH 301"]
        (mkStudent "CSC/2020/001" ["CSC 301"]).matricNumber :=
  (C4_amended_unrestricted_count [mkRow "CSC/2020/001" "MTH 301"]
    (mkStudent "CSC/2020/001" ["CSC 301"])).2
    (mkRow "CSC/2020/001" "MTH 301") (by decide) (by decide) (by decide)

/-- C5: the per-student attended count equals the number of attendance rows
matching the student's matric number, with no course-code restriction, and
the reported percentage rounds `attended / enrolled × 100`, `0` when no
courses are enrolled. -/
theorem C5_student_percentage (attendanceRecords : List CourseAttendance) (student : Student) :
    (∀ r, r ∈ getStudentAttendance attendanceRecords student.matricNumber ↔
      r ∈ attendanceRecords ∧ r.matricNumber = student.matricNumber) ∧
    (getStudentAttendance attendanceRecords student.matricNumber).length =
      attendanceRecords.countP (fun r => r.matricNumber == student.matricNumber) ∧
    (student.courses.length ≠ 0 →
      getAttendancePercentage attendanceRecords student =
        round (((getStudentAttendance attendanceRecords student.matricNumber).length : ℚ) /
          (student.courses.length : ℚ) * 100) ∧
      getAttendancePercentage attendanceRecords student =
        (((200 * (getStudentAttendance attendanceRecords student.matricNumber).length +
            student.courses.length) / (2 * student.courses.length) : ℕ) : ℤ)) ∧
    (student.courses.length = 0 → getAttendancePercentage attendanceRecords student = 0) := by
  refine ⟨?_, ?_, ?_, ?_⟩
  · intro r
    unfold getStudentAttendance
    rw [List.mem_filter]
    simp
  · unfold getStudentAttendance
    exact (List.countP_eq_length_filter _ _).symm
  · intro h0
    have hp : getAttendancePercentage attendanceRecords student =
        if 0 < student.courses.length then
          jsRound (((getStudentAttendance attendanceRecords student.matricNumber).length : ℚ) /
            (student.courses.length : ℚ) * 100)
        else 0 := rfl
    constructor
    · rw [hp, if_pos (Nat.pos_of_ne_zero h0), jsRound_eq_round]
    · exact getAttendancePercentage_closed attendanceRecords student h0
  · intro h0
    have hp : getAttendancePercentage attendanceRecords student =
        if 0 < student.courses.length then
          jsRound (((getStudentAttendance attendanceRecords student.matricNumber).length : ℚ) /
            (student.courses.length : ℚ) * 100)
        else 0 := rfl
    rw [hp, if_neg (by omega)]

/-- Witness for C5: the spec's scenario — a student with two courses and
one matching attendance row is reported at 50%. -/
theorem C5_student_percentage_witness :
    getAttendancePercentage [mkRow "CSC/2020/001" "CSC 301"]
      (mkStudent "CSC/2020/001" ["CSC 301", "CSC 302"]) = 50 :=
  (((C5_student_percentage [mkRow "CSC/2020/001" "CSC 301"]
    (mkStudent "CSC/2020/001" ["CSC 301", "CSC 302"])).2.2.1 (by decide)).2).trans (by decide)

/-- Form data for the C6 counterexample. -/
def regForm6 : RegForm :=
  ⟨"Ben", "CSC/2020/003", "img", "2024/2025", "First Semester", ["CSC 301"]⟩

/-- C6 counterexample: when the duplicate-check lookup fails with a network
error, the failure is not terminal for the registration action — the check
reports no conflict, the insert runs, the table changes, and a success
message (not an error) is shown. -/
theorem C6_failure_not_terminal_counterexample :
    handleSubmitWith (Except.error ⟨"NETWORK_FAILURE"⟩) none regForm6 [] "7" "2024-04-04" =
      ([newStudentRow regForm6 "7" "2024-04-04"], .success "Student registered successfully!") ∧
    (handleSubmitWith (Except.error ⟨"NETWORK_FAILURE"⟩) none regForm6 [] "7" "2024-04-04").1 ≠
      ([] : List Student) := by
  decide

/-- C6 as amended: remote-call failures are caught at the call site, but a
failure of the duplicate-check lookup (registration) or of the
already-verified lookup (attendance marking) is swallowed: the check
reports no conflict (`[]` / `false`) and the action proceeds to the
insert.  Insert failures and search failures do surface a user-facing
error message and leave the relevant table and selection unchanged. -/
theorem C6_amended_error_handling (e : SupaError) (form : RegForm) (store : List Student)
    (nowId nowDate : String) (s : Student) (selectedCourse invigilatorName now : String)
    (astore : List CourseAttendance)
    (hname : form.fullName ≠ "") (hmat : form.matricNumber ≠ "") (himg : form.image ≠ "")
    (hcrs : form.courses.length ≠ 0)
    (hc : selectedCourse ≠ "") (hi : trimStr invigilatorName ≠ "") :
    checkDuplicateRegistration (.error e) form.courses = [] ∧
    handleSubmitWith (.error e) none form store nowId nowDate =
      (store ++ [newStudentRow form nowId nowDate], .success "Student registered successfully!") ∧
    isAlreadyVerified (.error e) = false ∧
    handleMarkAttendanceWith (.error e) none (some s) selectedCourse invigilatorName astore now =
      (astore ++ [⟨s.matricNumber, selectedCourse, now, trimStr invigilatorName⟩],
        .success "Student attendance marked successfully!") ∧
    (∀ e2, handleSubmitWith (.error e) (some e2) form store nowId nowDate =
      (store, .error "Error registering student.")) ∧
    (∀ e2, handleMarkAttendanceWith (.error e) (some e2) (some s) selectedCourse invigilatorName
      astore now = (astore, .error "Error marking attendance.")) ∧
    (e.code ≠ "PGRST116" →
      handleSearchWith (.error e) = (none, some (.error "Error searching student."))) := by
  have hval : ¬(form.fullName = "" ∨ form.matricNumber = "" ∨ form.image = "" ∨
      form.courses.length = 0) := by
    push_neg
    exact ⟨hname, hmat, himg, hcrs⟩
  refine ⟨rfl, ?_, rfl, ?_, ?_, ?_, ?_⟩
  · exact handleSubmitWith_proceeds _ none _ _ _ _ hval rfl
  · exact handleMarkAttendanceWith_proceeds _ none s selectedCourse invigilatorName astore now
      hc hi rfl
  · intro e2
    exact handleSubmitWith_proceeds _ (some e2) _ _ _ _ hval rfl
  · intro e2
    exact handleMarkAttendanceWith_proceeds _ (some e2) s selectedCourse invigilatorName astore now
      hc hi rfl
  · intro hcode
    have hs : handleSearchWith (.error e) =
        if e.code ≠ "PGRST116" then (none, some (.error "Error searching student."))
        else (none, some (.error "Student not found. Please check the matric number.")) := rfl
    rw [hs, if_pos hcode]

/-- Witness for the amended C6: with a failing already-verified lookup the
mark-attendance action inserts the row and reports success. -/
theorem C6_amended_error_handling_witness :
    handleMarkAttendanceWith (.error ⟨"NETWORK_FAILURE"⟩) none
      (some (mkStudent "CSC/2020/001" ["CSC 301"])) "CSC 301" "Dr. B" [] "2024-05-05" =
      ([⟨"CSC/2020/001", "CSC 301", "2024-05-05", "Dr. B"⟩],
        .success "Student attendance marked successfully!") :=
  ((C6_amended_error_handling ⟨"NETWORK_FAILURE"⟩ regForm6 [] "7" "2024-04-04"
    (mkStudent "CSC/2020/001" ["CSC 301"]) "CSC 301" "Dr. B" "2024-05-05" []
    (by decide) (by decide) (by decide) (by decide) (by decide) (by decide)).2.2.2.1).trans
    (by decide)

/-- Students table for the C7 witness, with a duplicated course across
students and unsorted course lists. -/
def repStudents7 : List Student :=
  [mkStudent "CSC/2020/004" ["MTH 302 - Linear Algebra", "CSC 301 - Data Structures"],
   mkStudent "CSC/2020/005" ["CSC 301 - Data Structures", "STA 301 - Statistics"]]

/-- C7: the distinct course set used for reporting is sorted ascending in
the lexicographic (code-point) order, has no duplicates, contains exactly
the courses occurring in some student's enrollment list, and each such
course occurs in it exactly once. -/
theorem C7_all_courses (students : List Student) :
    List.Pairwise (fun a b => lexLe a.data b.data = true) (allCourses students) ∧
    (allCourses students).Nodup ∧
    (∀ c, c ∈ allCourses students ↔ ∃ s ∈ students, c ∈ s.courses) ∧
    (∀ c, (∃ s ∈ students, c ∈ s.courses) → (allCourses students).count c = 1) := by
  have hperm : (allCourses students).Perm
      (dedupFirst (students.flatMap (fun student => student.courses))) :=
    List.mergeSort_perm _ _
  have hnodup : (allCourses students).Nodup := hperm.nodup_iff.mpr (nodup_dedupFirst _)
  have hmem : ∀ c, c ∈ allCourses students ↔ ∃ s ∈ students, c ∈ s.courses := by
    intro c
    rw [hperm.mem_iff, mem_dedupFirst, List.mem_flatMap]
  refine ⟨?_, hnodup, hmem, ?_⟩
  · exact List.sorted_mergeSort
      (fun a b c hab hbc => lexLe_trans a.data b.data c.data hab hbc)
      (fun a b => lexLe_total a.data b.data) _
  · intro c hc
    exact List.count_eq_one_of_mem hnodup ((hmem c).mpr hc)

/-- Witness for C7: `CSC 301`, enrolled by both witnesses' students,
appears exactly once in the distinct course set. -/
theorem C7_all_courses_witness :
    (allCourses repStudents7).count "CSC 301 - Data Structures" = 1 :=
  (C7_all_courses repStudents7).2.2.2 "CSC 301 - Data Structures"
    ⟨mkStudent "CSC/2020/004" ["MTH 302 - Linear Algebra", "CSC 301 - Data Structures"],
      by decide, by decide⟩

/-- Database for the C8 witness: one pre-existing row in
`attendance_records` that the app never wrote. -/
def db8 : Database :=
  ⟨[mkStudent "CSC/2020/001" ["CSC 301 - Data Structures"]], [],
    [mkRow "CSC/2020/009" "CSC 305 - Operating Systems"]⟩

/-- C8: a successful mark-attendance action writes only the
`course_attendance` table (read by the reports screen); the
`attendance_records` table — the one read by the home screen and the
student-details screen — is never written, neither by marking nor by
registration, so a row the app creates never appears in those screens'
attendance data unless an identical row was already there. -/
theorem C8_attendance_table_routing (db : Database) (s : Student)
    (selectedCourse invigilatorName now : String)
    (hc : selectedCourse ≠ "") (hi : trimStr invigilatorName ≠ "")
    (hnew : isAlreadyVerified
      (queryAttendance db.course_attendance s.matricNumber selectedCourse) = false) :
    (markAttendanceDB db (some s) selectedCourse invigilatorName none now).1.attendance_records =
      db.attendance_records ∧
    loadAttendance (markAttendanceDB db (some s) selectedCourse invigilatorName none now).1 =
      loadAttendance db ∧
    studentDetailsAttendance
      (markAttendanceDB db (some s) selectedCourse invigilatorName none now).1 =
      studentDetailsAttendance db ∧
    reportsAttendance (markAttendanceDB db (some s) selectedCourse invigilatorName none now).1 =
      db.course_attendance ++ [⟨s.matricNumber, selectedCourse, now, trimStr invigilatorName⟩] ∧
    (⟨s.matricNumber, selectedCourse, now, trimStr invigilatorName⟩ : CourseAttendance) ∈
      reportsAttendance (markAttendanceDB db (some s) selectedCourse invigilatorName none now).1 ∧
    (∀ r : CourseAttendance, r ∉ loadAttendance db →
      r ∉ loadAttendance (markAttendanceDB db (some s) selectedCourse invigilatorName none now).1) ∧
    (∀ form ie nowId nowDate,
      (registerStudentDB db form ie nowId nowDate).1.attendance_records =
        db.attendance_records) := by
  have hmark : handleMarkAttendance (some s) selectedCourse invigilatorName none
      db.course_attendance now =
      (db.course_attendance ++ [⟨s.matricNumber, selectedCourse, now, trimStr invigilatorName⟩],
        .success "Student attendance marked successfully!") := by
    unfold handleMarkAttendance
    exact handleMarkAttendanceWith_proceeds _ none s _ _ _ _ hc hi hnew
  have hdb : (markAttendanceDB db (some s) selectedCourse invigilatorName none now).1 =
      { db with course_attendance :=
          db.course_attendance ++ [⟨s.matricNumber, selectedCourse, now, trimStr invigilatorName⟩] } := by
    unfold markAttendanceDB
    rw [hmark]
  refine ⟨?_, ?_, ?_, ?_, ?_, ?_, ?_⟩
  · rw [hdb]
  · unfold loadAttendance
    rw [hdb]
  · unfold studentDetailsAttendance
    rw [hdb]
  · unfold reportsAttendance
    rw [hdb]
  · unfold reportsAttendance
    rw [hdb]
    simp
  · intro r hr
    unfold loadAttendance
    rw [hdb]
    exact hr
  · intro form ie nowId nowDate
    rfl

/-- Witness for C8: marking attendance for `CSC 301` leaves the
`attendance_records` table of the concrete database untouched. -/
theorem C8_attendance_table_routing_witness :
    (markAttendanceDB db8 (some (mkStudent "CSC/2020/001" ["CSC 301 - Data Structures"]))
      "CSC 301 - Data Structures" "Dr. B" none "2024-06-06").1.attendance_records =
      db8.attendance_records :=
  (C8_attendance_table_routing db8 (mkStudent "CSC/2020/001" ["CSC 301 - Data Structures"])
    "CSC 301 - Data Structures" "Dr. B" "2024-06-06" (by decide) (by decide) (by decide)).1

/-- Students table for C9: one registered student for `CSC 301`. -/
def repStudents9 : List Student := [mkStudent "CSC/2020/001" ["CSC 301 - Data Structures"]]

/-- Attendance table for C9: a row whose matric number belongs to no
registered student, plus two duplicate rows for the registered one. -/
def repRecords9 : List CourseAttendance :=
  [mkRow "CSC/2020/099" "CSC 301 - Data Structures",
   mkRow "CSC/2020/001" "CSC 301 - Data Structures",
   mkRow "CSC/2020/001" "CSC 301 - Data Structures"]

/-- C9: the modal's absent count is registered minus the raw per-course row
count — rows are neither restricted to registered students nor deduplicated
— so with a foreign-matric row and duplicate rows it is negative (−2 here)
and differs from the number of registered students lacking a row (0 here). -/
theorem C9_absent_count :
    (∀ (students : List Student) (attendanceRecords : List CourseAttendance) (course : String),
      absentCount students attendanceRecords course =
        ((getStudentsForCourse students course).length : ℤ) -
          ((getAttendanceForCourse attendanceRecords course).length : ℤ)) ∧
    absentCount repStudents9 repRecords9 "CSC 301 - Data Structures" = -2 ∧
    absentCount repStudents9 repRecords9 "CSC 301 - Data Structures" < 0 ∧
    registeredStudentsWithoutAttendance repStudents9 repRecords9 "CSC 301 - Data Structures" = 0 ∧
    absentCount repStudents9 repRecords9 "CSC 301 - Data Structures" ≠
      (registeredStudentsWithoutAttendance repStudents9 repRecords9
        "CSC 301 - Data Structures" : ℤ) :=
  ⟨fun _ _ _ => rfl, by decide, by decide, by decide, by decide⟩

/-- C10: both entry points normalize the typed matric number: the stored
input state upper-cases the text, the search key additionally trims it, so
searching any string and searching its upper-cased form query the same
key and give the same result, and two typed matric numbers that differ
only in letter case produce the same stored key and the same duplicate
check. -/
theorem C10_case_normalization (store : List Student) (cs : List String) (s t typed : String)
    (h : s.data.map Char.toUpper = t.data.map Char.toUpper) :
    handleSearch store typed = handleSearch store (toUpperStr typed) ∧
    matricInputState s = matricInputState t ∧
    queryStudentSingle store (matricInputState s) =
      queryStudentSingle store (matricInputState t) ∧
    checkDuplicateRegistration (queryStudentSingle store (matricInputState s)) cs =
      checkDuplicateRegistration (queryStudentSingle store (matricInputState t)) cs := by
  have hst : matricInputState s = matricInputState t := by
    unfold matricInputState toUpperStr
    exact congrArg String.mk h
  refine ⟨?_, hst, by rw [hst], by rw [hst]⟩
  unfold handleSearch
  have h1 : trimStr (toUpperStr typed) = toUpperStr (trimStr typed) := trimStr_toUpperStr typed
  by_cases he : trimStr typed = ""
  · have he2 : trimStr (toUpperStr typed) = "" := by
      rw [h1, he]
      rfl
    rw [if_pos he, if_pos he2]
  · have he2 : trimStr (toUpperStr typed) ≠ "" := by
      rw [h1]
      exact fun k => he ((toUpperStr_eq_empty _).mp k)
    rw [if_neg he, if_neg he2, h1, toUpperStr_toUpperStr]

/-- Witness for C10: a lower-case and an upper-case typing of the same
matric number give the same stored input state. -/
theorem C10_case_normalization_witness :
    matricInputState "csc/2020/001" = matricInputState "CSC/2020/001" :=
  (C10_case_normalization [] [] "csc/2020/001" "CSC/2020/001" "x" (by decide)).2.1
